import Mathlib

/-!
Verification development for the oeem-energy-datastore core pipeline
(`datastore/models.py`): the meter-run evaluation (`Project.run_meter`),
meter-run validity (`MeterRun.valid_meter_run`), and portfolio aggregation
(`ProjectBlock.compute_summary_timeseries`).

Modelling conventions:
* Timestamps and calendar dates are epoch-day integers (`Date := Int`);
  a calendar month is a `(year, month)` pair obtained from a date with the
  standard civil-calendar conversion (this embeds `date.strftime("%Y-%m")`).
* Float values are modelled as `Val := Option ℚ`, where `none` plays the
  role of IEEE NaN (so `np.nansum` / `np.nanmean` become sums and means over
  the `some` entries).  Nullable float columns are likewise `Option ℚ`.
* Python `defaultdict(list)` dictionaries are insertion-ordered association
  lists (`DMap`), with `dappend` modelling `d[k].append(v)` and `getD`
  modelling a read with default `[]`.
* Raised exceptions (`assert`, `AttributeError` on `None`,
  `NotImplementedError`, `UnboundLocalError`) are modelled with
  `Except String`.
-/

/-- Calendar dates as days since 1970-01-01 (models `datetime.date`). -/
abbrev Date := Int

/-- A calendar month as a `(year, month)` pair (models the `"%Y-%m"` key). -/
abbrev Month := Int × Int

/-- A float value; `none` models IEEE NaN (and SQL NULL where relevant). -/
abbrev Val := Option ℚ

/-- Convert an epoch-day number to `(year, month, day)` in the proleptic
Gregorian calendar (standard civil-from-days algorithm; embeds the calendar
arithmetic behind `datetime` / `strftime`). -/
def civilFromDays (z : Date) : Int × Int × Int :=
  let zs : Int := z + 719468
  let era : Int := Int.fdiv zs 146097
  let doe : Int := zs - era * 146097
  let yoe : Int := (doe - doe / 1460 + doe / 36524 - doe / 146096) / 365
  let y : Int := yoe + era * 400
  let doy : Int := doe - (365 * yoe + yoe / 4 - yoe / 100)
  let mp : Int := (5 * doy + 2) / 153
  let d : Int := doy - (153 * mp + 2) / 5 + 1
  let m : Int := mp + (if mp < 10 then 3 else -9)
  (if m ≤ 2 then y + 1 else y, m, d)

/-- The `"%Y-%m"` month key of a date (models `date.strftime("%Y-%m")`). -/
def monthOf (d : Date) : Month :=
  ((civilFromDays d).1, (civilFromDays d).2.1)

/-- Sum of a list of rationals (the `[x]` case returns `x` directly, so a
singleton sum is definitionally its element). -/
def sumQ : List ℚ → ℚ
  | [] => 0
  | [x] => x
  | x :: rest => x + sumQ rest

/-- NaN-tolerant sum (models `np.nansum`): NaN entries contribute nothing,
and the empty (or all-NaN) sum is `0`. -/
def nansum (l : List Val) : ℚ := sumQ (l.filterMap id)

/-- NaN-tolerant mean (models `np.nanmean`): the mean of the non-NaN
entries, or NaN when there are none. -/
def nanmean (l : List Val) : Val :=
  match l.filterMap id with
  | [] => none
  | x :: rest => some (sumQ (x :: rest) / ((x :: rest).length : ℚ))

/-! ## Insertion-ordered dictionaries of value lists

Models Python `defaultdict(list)`: `dappend m k v` is `m[k].append(v)`
(creating the key at the end, in insertion order, when absent) and
`getD m k` is the read `m[k]` with default `[]`. -/

/-- An insertion-ordered dictionary from keys to lists of values. -/
abbrev DMap (κ : Type) := List (κ × List Val)

/-- Models `m[k].append(v)` on a `defaultdict(list)`. -/
def dappend {κ : Type} [DecidableEq κ] (m : DMap κ) (k : κ) (v : Val) :
    DMap κ :=
  match m with
  | [] => [(k, [v])]
  | (a, vs) :: rest =>
    if k = a then (a, vs ++ [v]) :: rest else (a, vs) :: dappend rest k v

/-- Models the `defaultdict(list)` read `m[k]` (default `[]`). -/
def getD {κ : Type} [DecidableEq κ] (m : DMap κ) (k : κ) : List Val :=
  match m with
  | [] => []
  | (a, vs) :: rest => if k = a then vs else getD rest k

/-- The keys of a `DMap`, in insertion order (models `dict.keys()`). -/
def keysD {κ : Type} (m : DMap κ) : List κ := m.map Prod.fst

/-! ## run_meter daily and monthly series (models.py lines 193-234)

Per fuel stream, `run_meter` obtains one baseline and one reporting usage
value list from `model.transform` applied to the daily temperatures, then
iterates `zip(values_baseline, values_reporting, range(period.timedelta.days))`,
persisting one `DailyUsageBaseline` and one `DailyUsageReporting` row per
iteration and bucketing values by `"%Y-%m"` month key. -/

/-- One persisted daily usage row (`DailyUsageBaseline` / `DailyUsageReporting`). -/
structure DailyRow where
  date : Date
  value : Val
deriving DecidableEq

/-- The loop iterations of the per-day loop: the three-way
`zip(values_baseline, values_reporting, range(nDays))`. -/
def evalTriples (nDays : ℕ) (valsB valsR : List Val) :
    List ((Val × Val) × ℕ) :=
  (valsB.zip valsR).zip (List.range nDays)

/-- The persisted daily rows of one meter run: for each loop iteration,
one baseline row and one reporting row, both dated
`period.start + timedelta(days=k)`. -/
def dailyRows (start : Date) (nDays : ℕ) (valsB valsR : List Val) :
    List DailyRow × List DailyRow :=
  ((evalTriples nDays valsB valsR).map fun t => ⟨start + (t.2 : Int), t.1.1⟩,
   (evalTriples nDays valsB valsR).map fun t => ⟨start + (t.2 : Int), t.1.2⟩)

/-- The month-bucketing state of the per-day loop: `month_names` (seeded
with the evaluation start month) and the two `defaultdict(list)` month
groups. -/
structure MonthAcc where
  names : List Month
  groupsB : DMap Month
  groupsR : DMap Month

/-- One iteration of the month bookkeeping in the per-day loop:
extend `month_names` when the month key changes, and append the baseline
and reporting values to their month groups. -/
def monthStep (start : Date) (acc : MonthAcc) (t : (Val × Val) × ℕ) :
    MonthAcc :=
  let m := monthOf (start + (t.2 : Int))
  { names := if acc.names.getLast? = some m then acc.names else acc.names ++ [m]
    groupsB := dappend acc.groupsB m t.1.1
    groupsR := dappend acc.groupsR m t.1.2 }

/-- The month state after the per-day loop of one meter run. -/
def monthAccFor (start : Date) (nDays : ℕ) (valsB valsR : List Val) :
    MonthAcc :=
  (evalTriples nDays valsB valsR).foldl (monthStep start)
    ⟨[monthOf start], [], []⟩

/-- The value persisted per visited month:
`0 if values == [] else np.nanmean(values)`. -/
def monthlyVal (vs : List Val) : Val :=
  if vs = [] then some 0 else nanmean vs

/-- The persisted `MonthlyAverageUsageBaseline` and
`MonthlyAverageUsageReporting` rows of one meter run, one per visited
month name. -/
def monthlyRows (start : Date) (nDays : ℕ) (valsB valsR : List Val) :
    List (Month × Val) × List (Month × Val) :=
  let acc := monthAccFor start nDays valsB valsR
  (acc.names.map fun m => (m, monthlyVal (getD acc.groupsB m)),
   acc.names.map fun m => (m, monthlyVal (getD acc.groupsR m)))

/-- The baseline values of the evaluation window that fall in month `m`
(read off directly from the loop iterations). -/
def monthValsB (start : Date) (nDays : ℕ) (valsB valsR : List Val)
    (m : Month) : List Val :=
  ((evalTriples nDays valsB valsR).filter
    (fun t => decide (monthOf (start + (t.2 : Int)) = m))).map fun t => t.1.1

/-- The reporting values of the evaluation window that fall in month `m`. -/
def monthValsR (start : Date) (nDays : ℕ) (valsB valsR : List Val)
    (m : Month) : List Val :=
  ((evalTriples nDays valsB valsR).filter
    (fun t => decide (monthOf (start + (t.2 : Int)) = m))).map fun t => t.1.2

/-! ## MeterRun.valid_meter_run (models.py lines 413-416) -/

/-- The default CVRMSE validity threshold (`threshold=20`). -/
def defaultCvrmseThreshold : ℚ := 20

/-- Embeds `MeterRun.valid_meter_run`: returns `False` when either CVRMSE
is `None`, else checks both are strictly below the threshold. -/
def valid_meter_run (cvrmse_baseline cvrmse_reporting : Option ℚ)
    (threshold : ℚ := defaultCvrmseThreshold) : Bool :=
  match cvrmse_baseline, cvrmse_reporting with
  | none, _ => false
  | _, none => false
  | some b, some r => decide (b < threshold) && decide (r < threshold)

/-! ## run_meter window resolution (models.py lines 103-111) -/

/-- Embeds the `start_date is None` branch of `Project.run_meter`: start
from `now()` and replace it by any stream first-record timestamp that is
earlier. -/
def resolveStartDate (start_date : Option Int) (nowT : Int)
    (streamEarliest : List Int) : Int :=
  match start_date with
  | some s => s
  | none => streamEarliest.foldl (fun acc e => if e < acc then e else acc) nowT

/-- Embeds the `end_date is None` branch of `Project.run_meter`. -/
def resolveEndDate (end_date : Option Int) (nowT : Int) : Int :=
  match end_date with
  | some e => e
  | none => nowT

/-! ## run_meter model dispatch and per-stream loop (models.py lines 117-191)

`run_meter` iterates the project's consumption streams; per stream it
dispatches on the fuel type tag (electricity: heating and cooling enabled;
natural gas: heating only; anything else raises `NotImplementedError`,
which propagates out of the loop), gathers the meter results (each may be
`None`), saves a `MeterRun`, and then generates the daily series. -/

/-- One consumption stream as seen by the per-stream loop. -/
structure FuelStream where
  fuel_type : String
deriving DecidableEq

/-- The fuel-type dispatch of `run_meter` (lines 123-130): the meter-type
suffix and the `(heating, cooling)` flags of the model configuration, or
`NotImplementedError` for an unsupported fuel type. -/
def modelConfigFor (fuel : String) : Except String (String × Bool × Bool) :=
  if fuel = "electricity" then Except.ok ("E", true, true)
  else if fuel = "natural_gas" then Except.ok ("NG", true, false)
  else Except.error "NotImplementedError"

/-- Whether a fuel type tag is supported by the dispatch. -/
def isSupportedFuel (fuel : String) : Bool :=
  fuel = "electricity" || fuel = "natural_gas"

/-- The residential meter-type string persisted on a `MeterRun`. -/
def meterTypeStr (suffix : String) : String := "DFLT_RES_" ++ suffix

/-- The meter-type string a supported stream's `MeterRun` receives. -/
def savedMeterType (s : FuelStream) : String :=
  meterTypeStr (if s.fuel_type = "electricity" then "E" else "NG")

/-- Embeds the per-stream loop of `run_meter` restricted to what C9 needs:
the list of persisted `MeterRun` meter-type strings, in stream order, plus
the propagated error when a stream's fuel type is unsupported.  The raise
aborts the loop: no later stream is processed. -/
def runMeterLoop : List FuelStream → List String × Option String
  | [] => ([], none)
  | s :: rest =>
    match modelConfigFor s.fuel_type with
    | Except.error e => ([], some e)
    | Except.ok cfg =>
      let r := runMeterLoop rest
      (meterTypeStr cfg.1 :: r.1, r.2)

/-- The meter results gathered for one stream (lines 138-175): each datum
is absent (`none`) when the model-fitting collaborator could not produce
it.  Fitted parameters are represented by the usage projection they induce
(`model.transform(avg_temps, params)` applied pointwise). -/
structure MeterResults where
  annual_usage_baseline : Option ℚ
  annual_usage_reporting : Option ℚ
  gross_savings : Option ℚ
  cvrmse_baseline : Option ℚ
  cvrmse_reporting : Option ℚ
  model_params_baseline : Option (ℚ → Val)
  model_params_reporting : Option (ℚ → Val)

/-- The nullable scalar fields persisted on a `MeterRun` (lines 177-188). -/
structure MeterRunRecord where
  annual_usage_baseline : Option ℚ
  annual_usage_reporting : Option ℚ
  gross_savings : Option ℚ
  annual_savings : Option ℚ
  cvrmse_baseline : Option ℚ
  cvrmse_reporting : Option ℚ
deriving DecidableEq

/-- Gathering of the `MeterRun` scalar fields: absent data stays `None`,
and `annual_savings` is computed only when both annualized usages are
present. -/
def gatherMeterRun (res : MeterResults) : MeterRunRecord :=
  { annual_usage_baseline := res.annual_usage_baseline
    annual_usage_reporting := res.annual_usage_reporting
    gross_savings := res.gross_savings
    annual_savings :=
      match res.annual_usage_baseline, res.annual_usage_reporting with
      | some b, some r => some (b - r)
      | _, _ => none
    cvrmse_baseline := res.cvrmse_baseline
    cvrmse_reporting := res.cvrmse_reporting }

/-- Embeds the series-generation tail of the per-stream loop (lines
193-198) for the first processed stream.  The locals
`model_parameters_baseline` / `model_parameters_reporting` are assigned
only under `if model_parameter_json_... is not None:` (lines 165-175; the
`None` default on lines 164 and 171 is given to the differently named and
never-read `model_parameter_array_...`), so when a regime's fitted
parameters are absent, `model.transform(avg_temps, model_parameters_...)`
reads an unbound local and raises. -/
def evalStreamSeries (res : MeterResults) (start : Date) (nDays : ℕ)
    (temps : List ℚ) : Except String (List DailyRow × List DailyRow) :=
  match res.model_params_baseline with
  | none => Except.error
      "UnboundLocalError: local variable model_parameters_baseline referenced before assignment"
  | some pb =>
    match res.model_params_reporting with
    | none => Except.error
        "UnboundLocalError: local variable model_parameters_reporting referenced before assignment"
    | some pr =>
      Except.ok (dailyRows start nDays (temps.map pb) (temps.map pr))

/-! ## ProjectBlock.compute_summary_timeseries (models.py lines 258-339)

Aggregation input: each project contributes its nullable
`reporting_period_start` and, per consumption stream, the latest meter
run's fuel type and aligned daily baseline/reporting rows.  Phase 1
accumulates per-fuel-type `defaultdict(list)` buckets keyed by date and by
month for the baseline, actual (regime-switched), and reporting series;
phase 2 sorts the keys and persists one NaN-tolerant sum per key per
series under a fresh `FuelTypeSummary`.  Raised exceptions (the length
`assert`, and `AttributeError` when `reporting_period_start` is `None`)
abort the whole computation before phase 2 writes anything. -/

/-- The data of one recent `MeterRun` used by aggregation. -/
structure MeterRunData where
  fuel_type : String
  baseline : List DailyRow
  reporting : List DailyRow
deriving DecidableEq

/-- The data of one project used by aggregation. -/
structure ProjData where
  reporting_period_start : Option Date
  runs : List MeterRunData
deriving DecidableEq

/-- The per-fuel-type bucket dictionaries of phase 1. -/
structure FTData where
  baselineByMonth : DMap Month
  baselineByDate : DMap Date
  actualByMonth : DMap Month
  actualByDate : DMap Date
  reportingByMonth : DMap Month
  reportingByDate : DMap Date
deriving DecidableEq

/-- The empty bucket set (the `defaultdict` default of `data_by_fuel_type`). -/
def FTData.empty : FTData := ⟨[], [], [], [], [], []⟩

/-- The three aggregated series kinds. -/
inductive Reg
  | baseline
  | actual
  | reporting
deriving DecidableEq

/-- The value a zipped row pair contributes to a series: the baseline row
value, the reporting row value, or — for the actual series — the
reporting value exactly when the row date is strictly after the project's
reporting-period start (line 296: `if date > reporting_period_start.date()`),
and the baseline value otherwise. -/
def rowVal (rps : Date) (pr : DailyRow × DailyRow) : Reg → Val
  | Reg.baseline => pr.1.value
  | Reg.actual => if rps < pr.1.date then pr.2.value else pr.1.value
  | Reg.reporting => pr.2.value

/-- The date-keyed bucket of a series kind. -/
def dateDict (ft : FTData) : Reg → DMap Date
  | Reg.baseline => ft.baselineByDate
  | Reg.actual => ft.actualByDate
  | Reg.reporting => ft.reportingByDate

/-- The month-keyed bucket of a series kind. -/
def monthDict (ft : FTData) : Reg → DMap Month
  | Reg.baseline => ft.baselineByMonth
  | Reg.actual => ft.actualByMonth
  | Reg.reporting => ft.reportingByMonth

/-- One iteration of the inner row loop (lines 286-306): append the
baseline, actual, and reporting values of one aligned row pair to the six
buckets, keyed by the baseline row's date and its month. -/
def addRow (rps : Date) (ft : FTData) (pr : DailyRow × DailyRow) : FTData :=
  { baselineByMonth := dappend ft.baselineByMonth (monthOf pr.1.date) (rowVal rps pr Reg.baseline)
    baselineByDate := dappend ft.baselineByDate pr.1.date (rowVal rps pr Reg.baseline)
    actualByMonth := dappend ft.actualByMonth (monthOf pr.1.date) (rowVal rps pr Reg.actual)
    actualByDate := dappend ft.actualByDate pr.1.date (rowVal rps pr Reg.actual)
    reportingByMonth := dappend ft.reportingByMonth (monthOf pr.1.date) (rowVal rps pr Reg.reporting)
    reportingByDate := dappend ft.reportingByDate pr.1.date (rowVal rps pr Reg.reporting) }

/-- Error-propagating left fold (how a Python `for` loop interacts with a
raised exception: iterations run in order and the first raise aborts). -/
def foldME {σ α : Type} (f : σ → α → Except String σ) :
    σ → List α → Except String σ
  | s, [] => Except.ok s
  | s, a :: l =>
    match f s a with
    | Except.error e => Except.error e
    | Except.ok s2 => foldME f s2 l

/-- The inner row loop over the zipped daily rows of one meter run.
When the project's `reporting_period_start` is `None`, the first iteration
raises (`None.date()` on line 296). -/
def processRows (rps : Option Date) (pairs : List (DailyRow × DailyRow))
    (ft : FTData) : Except String FTData :=
  foldME (fun ft pr =>
    match rps with
    | none => Except.error "AttributeError: NoneType object has no attribute date"
    | some rps0 => Except.ok (addRow rps0 ft pr)) ft pairs

/-- The per-fuel-type state of phase 1: fuel type tag to buckets, in
insertion order (models the outer `defaultdict`). -/
abbrev DB := List (String × FTData)

/-- Read the buckets of a fuel type (default empty, as the `defaultdict`
read on line 278 creates). -/
def getFT (db : DB) (f : String) : FTData :=
  match db with
  | [] => FTData.empty
  | (g, ft) :: rest => if f = g then ft else getFT rest f

/-- Apply a fallible in-place update to the buckets of a fuel type,
inserting the default-empty entry first when the key is absent (models
`fuel_type_data = data_by_fuel_type[fuel_type]` followed by mutation). -/
def updFT (db : DB) (f : String) (g : FTData → Except String FTData) :
    Except String DB :=
  match db with
  | [] =>
    match g FTData.empty with
    | Except.error e => Except.error e
    | Except.ok ft => Except.ok [(f, ft)]
  | (f2, ft2) :: rest =>
    if f = f2 then
      match g ft2 with
      | Except.error e => Except.error e
      | Except.ok ft => Except.ok ((f2, ft) :: rest)
    else
      match updFT rest f g with
      | Except.error e => Except.error e
      | Except.ok rest2 => Except.ok ((f2, ft2) :: rest2)

/-- Process one meter run (lines 271-306): `assert` that the baseline and
reporting row sets have equal length, then run the row loop over their
zip, into the buckets of the run's fuel type. -/
def processRun (rps : Option Date) (run : MeterRunData) (db : DB) :
    Except String DB :=
  if run.baseline.length = run.reporting.length then
    updFT db run.fuel_type (processRows rps (run.baseline.zip run.reporting))
  else Except.error "AssertionError"

/-- Phase 1 of `compute_summary_timeseries`: fold every project's recent
meter runs into the per-fuel-type buckets. -/
def accumulate (projects : List ProjData) : Except String DB :=
  foldME (fun db p =>
    foldME (fun db run => processRun p.reporting_period_start run db) db p.runs)
    [] projects

/-- Insert an element into a `≤`-sorted list (stable). -/
def insertSorted {α : Type} (le : α → α → Bool) (a : α) : List α → List α
  | [] => [a]
  | b :: l => if le a b then a :: b :: l else b :: insertSorted le a l

/-- Sorting by a boolean order (models Python `sorted`; the keys sorted
here are distinct dictionary keys, so stability is immaterial). -/
def sortBy {α : Type} (le : α → α → Bool) (l : List α) : List α :=
  l.foldr (insertSorted le) []

/-- Date order. -/
def dateLE (a b : Date) : Bool := decide (a ≤ b)

/-- Month-key order: lexicographic on `(year, month)`, the order of the
sorted `"%Y-%m"` strings. -/
def monthLE (a b : Month) : Bool :=
  decide (a.1 < b.1) || (decide (a.1 = b.1) && decide (a.2 ≤ b.2))

/-- The persisted rows of one `FuelTypeSummary` (phase 2, lines 320-339). -/
structure SummaryOut where
  fuel_type : String
  dailyB : List (Date × ℚ)
  dailyA : List (Date × ℚ)
  dailyR : List (Date × ℚ)
  monthlyB : List (Month × ℚ)
  monthlyA : List (Month × ℚ)
  monthlyR : List (Month × ℚ)
deriving DecidableEq

/-- Phase 2 for one fuel type: sort the baseline bucket keys and persist
one NaN-tolerant sum per date and per month for each series kind. -/
def mkOut (f : String) (ft : FTData) : SummaryOut :=
  let dateLabels := sortBy dateLE (keysD ft.baselineByDate)
  let monthLabels := sortBy monthLE (keysD ft.baselineByMonth)
  { fuel_type := f
    dailyB := dateLabels.map fun d => (d, nansum (getD ft.baselineByDate d))
    dailyA := dateLabels.map fun d => (d, nansum (getD ft.actualByDate d))
    dailyR := dateLabels.map fun d => (d, nansum (getD ft.reportingByDate d))
    monthlyB := monthLabels.map fun m => (m, nansum (getD ft.baselineByMonth m))
    monthlyA := monthLabels.map fun m => (m, nansum (getD ft.actualByMonth m))
    monthlyR := monthLabels.map fun m => (m, nansum (getD ft.reportingByMonth m)) }

/-- Phase 2: one `FuelTypeSummary` per fuel type present, in insertion
order. -/
def summarize (db : DB) : List SummaryOut :=
  db.map fun fp => mkOut fp.1 (getFT db fp.1)

/-- The whole of `compute_summary_timeseries`: phase 1 then phase 2; any
exception in phase 1 propagates before any summary row is written. -/
def compute_summary_timeseries (projects : List ProjData) :
    Except String (List SummaryOut) :=
  match accumulate projects with
  | Except.error e => Except.error e
  | Except.ok db => Except.ok (summarize db)

/-- Whether an `Except` result is a raised error. -/
def isError {α : Type} (e : Except String α) : Bool :=
  match e with
  | Except.error _ => true
  | Except.ok _ => false

/-- The values the zipped rows of one meter run contribute to series kind
`reg` under key `k` (dates mapped through `keyOf`), read directly off the
aggregation input. -/
def pairsContribs {κ : Type} [DecidableEq κ] (rps : Option Date)
    (pairs : List (DailyRow × DailyRow)) (reg : Reg) (keyOf : Date → κ)
    (k : κ) : List Val :=
  match rps with
  | none => []
  | some rps0 =>
    (pairs.filter (fun pr => decide (keyOf pr.1.date = k))).map
      fun pr => rowVal rps0 pr reg

/-- The contribution of one meter run to fuel type `f`. -/
def runContribs {κ : Type} [DecidableEq κ] (rps : Option Date)
    (run : MeterRunData) (f : String) (reg : Reg) (keyOf : Date → κ)
    (k : κ) : List Val :=
  if run.fuel_type = f then
    pairsContribs rps (run.baseline.zip run.reporting) reg keyOf k
  else []

/-- Concatenation of the images of a list under a list-valued function. -/
def flatAll {α β : Type} (g : α → List β) : List α → List β
  | [] => []
  | a :: l => g a ++ flatAll g l

/-- The contribution of all projects to fuel type `f` under key `k`:
exactly the values of the projects that have data for `f` at `k`. -/
def contribsOn {κ : Type} [DecidableEq κ] (projects : List ProjData)
    (f : String) (reg : Reg) (keyOf : Date → κ) (k : κ) : List Val :=
  flatAll (fun p =>
    flatAll (fun run => runContribs p.reporting_period_start run f reg keyOf k)
      p.runs) projects

/-- Per-date contributions across projects. -/
def contribsAtDate (projects : List ProjData) (f : String) (reg : Reg)
    (d : Date) : List Val :=
  contribsOn projects f reg (fun x => x) d

/-- Per-month contributions across projects. -/
def contribsAtMonth (projects : List ProjData) (f : String) (reg : Reg)
    (m : Month) : List Val :=
  contribsOn projects f reg monthOf m

/-! ## Concrete instances used by witnesses and counterexamples -/

/-- A one-project aggregation input: reporting start on day 1, one
electricity meter run with two aligned daily rows (days 0 and 1). -/
def exProjC1 : List ProjData :=
  [⟨some 1, [⟨"E", [⟨0, some 10⟩, ⟨1, some 20⟩], [⟨0, some 11⟩, ⟨1, some 21⟩]⟩]⟩]

/-- The phase-1 state of `exProjC1`. -/
def exDbC1 : DB := ((accumulate exProjC1).toOption).getD []

/-- Two projects, each one electricity meter run with one daily row on
day 0, reporting-regime values 10 and 20, reporting start before day 0. -/
def exProjC5 : List ProjData :=
  [⟨some (-1), [⟨"E", [⟨0, some 1⟩], [⟨0, some 10⟩]⟩]⟩,
   ⟨some (-1), [⟨"E", [⟨0, some 2⟩], [⟨0, some 20⟩]⟩]⟩]

/-- The summaries of `exProjC5`. -/
def exOutsC5 : List SummaryOut :=
  ((compute_summary_timeseries exProjC5).toOption).getD []

/-- The single electricity summary of `exProjC5`. -/
def exOutC5 : SummaryOut :=
  (exOutsC5.head?).getD ⟨"", [], [], [], [], [], []⟩

/-- The C6 scenario: evaluation window of 3 days starting day 0 (Jan 1 -
Jan 3, 1970), temperatures 30, 40, 50, reporting-period start day 1
(Jan 2), daily rows produced by the run_meter series builder from the
baseline transform `fB` and reporting transform `fR`. -/
def c6projects (fB fR : ℚ → ℚ) : List ProjData :=
  [⟨some 1,
    [⟨"E",
      (dailyRows 0 3 ([30, 40, 50].map fun t => some (fB t))
        ([30, 40, 50].map fun t => some (fR t))).1,
      (dailyRows 0 3 ([30, 40, 50].map fun t => some (fB t))
        ([30, 40, 50].map fun t => some (fR t))).2⟩]⟩]

/-- The summaries of the C6 scenario. -/
def c6outs (fB fR : ℚ → ℚ) : List SummaryOut :=
  ((compute_summary_timeseries (c6projects fB fR)).toOption).getD []

/-- A concrete baseline transform (the identity). -/
def fBc6 (t : ℚ) : ℚ := t

/-- A concrete reporting transform (adds one, so it differs from `fBc6`
at every temperature). -/
def fRc6 (t : ℚ) : ℚ := t + 1

/-- Meter results whose baseline model parameters are absent (the
collaborator could not fit the baseline regime). -/
def c7results : MeterResults :=
  { annual_usage_baseline := none
    annual_usage_reporting := some 5
    gross_savings := none
    cvrmse_baseline := none
    cvrmse_reporting := some 10
    model_params_baseline := none
    model_params_reporting := some fun t => some t }

/-- Three streams: a supported one, an unsupported one, then another
supported one. -/
def c9streams : List FuelStream := [⟨"electricity"⟩, ⟨"water"⟩, ⟨"electricity"⟩]

/-- One project whose `reporting_period_start` is unset but whose meter
run has a daily usage row. -/
def c10projects : List ProjData :=
  [⟨none, [⟨"E", [⟨0, some 1⟩], [⟨0, some 2⟩]⟩]⟩]

/-! ## Theorems -/

example : monthOf 0 = (1970, 1) := by decide
example : monthOf 30 = (1970, 1) := by decide
example : monthOf 31 = (1970, 2) := by decide
example : monthOf (-1) = (1969, 12) := by decide

theorem getD_dappend {κ : Type} [DecidableEq κ] (m : DMap κ) (k : κ) (v : Val)
    (k' : κ) :
    getD (dappend m k v) k' = if k' = k then getD m k' ++ [v] else getD m k' := by
  induction m with
  | nil =>
    by_cases h : k' = k <;> simp [dappend, getD, h]
  | cons a rest ih =>
    obtain ⟨ka, vs⟩ := a
    by_cases hka : k = ka
    · subst hka
      by_cases h : k' = k <;> simp [dappend, getD, h]
    · by_cases h : k' = ka
      · subst h
        simp [dappend, getD, hka, Ne.symm hka]
      · simp [dappend, getD, hka, h, ih]

/-- A fold of `dappend` updates over a list: the final content at key `k`
is the initial content followed by the values of the elements whose key is
`k`, in order. -/
theorem getD_foldl_dappend {α κ : Type} [DecidableEq κ]
    (keyOf : α → κ) (valOf : α → Val) (l : List α) (m0 : DMap κ) (k : κ) :
    getD (l.foldl (fun m x => dappend m (keyOf x) (valOf x)) m0) k
      = getD m0 k ++ (l.filter (fun x => decide (keyOf x = k))).map valOf := by
  induction l generalizing m0 with
  | nil => simp
  | cons x rest ih =>
    simp only [List.foldl_cons, ih, getD_dappend, List.filter_cons]
    by_cases h : keyOf x = k
    · simp [h]
    · have h2 : ¬ k = keyOf x := fun hh => h hh.symm
      simp [h, h2]

theorem monthAccFor_groupsB (start : Date) (nDays : ℕ) (valsB valsR : List Val) :
    (monthAccFor start nDays valsB valsR).groupsB
      = (evalTriples nDays valsB valsR).foldl
          (fun g t => dappend g (monthOf (start + (t.2 : Int))) t.1.1) [] := by
  show ((evalTriples nDays valsB valsR).foldl (monthStep start)
      ⟨[monthOf start], [], []⟩).groupsB = _
  generalize evalTriples nDays valsB valsR = l
  suffices h : ∀ (acc : MonthAcc), (l.foldl (monthStep start) acc).groupsB
      = l.foldl (fun g t => dappend g (monthOf (start + (t.2 : Int))) t.1.1)
          acc.groupsB from h _
  induction l with
  | nil => intro acc; rfl
  | cons t rest ih => intro acc; simp only [List.foldl_cons, ih, monthStep]

theorem monthAccFor_groupsR (start : Date) (nDays : ℕ) (valsB valsR : List Val) :
    (monthAccFor start nDays valsB valsR).groupsR
      = (evalTriples nDays valsB valsR).foldl
          (fun g t => dappend g (monthOf (start + (t.2 : Int))) t.1.2) [] := by
  show ((evalTriples nDays valsB valsR).foldl (monthStep start)
      ⟨[monthOf start], [], []⟩).groupsR = _
  generalize evalTriples nDays valsB valsR = l
  suffices h : ∀ (acc : MonthAcc), (l.foldl (monthStep start) acc).groupsR
      = l.foldl (fun g t => dappend g (monthOf (start + (t.2 : Int))) t.1.2)
          acc.groupsR from h _
  induction l with
  | nil => intro acc; rfl
  | cons t rest ih => intro acc; simp only [List.foldl_cons, ih, monthStep]

/-- C3: `valid_meter_run` is true iff both CVRMSE values are present and
each is strictly below the threshold; a CVRMSE equal to the threshold, or
an absent CVRMSE, makes the run invalid.  The default threshold is 20. -/
theorem valid_meter_run_iff (cb cr : Option ℚ) (t : ℚ) :
    (valid_meter_run cb cr t = true ↔
      ∃ b r, cb = some b ∧ cr = some r ∧ b < t ∧ r < t) ∧
    (valid_meter_run (some t) cr t = false) ∧
    (valid_meter_run cb (some t) t = false) ∧
    (valid_meter_run none cr t = false) ∧
    (valid_meter_run cb none t = false) ∧
    defaultCvrmseThreshold = 20 := by
  refine ⟨?_, ?_, ?_, ?_, ?_, rfl⟩
  · constructor
    · intro h
      match cb, cr with
      | none, _ => simp [valid_meter_run] at h
      | some b, none => simp [valid_meter_run] at h
      | some b, some r =>
        simp only [valid_meter_run, Bool.and_eq_true, decide_eq_true_eq] at h
        exact ⟨b, r, rfl, rfl, h.1, h.2⟩
    · rintro ⟨b, r, rfl, rfl, hb, hr⟩
      simp [valid_meter_run, hb, hr]
  · match cr with
    | none => rfl
    | some r => simp [valid_meter_run]
  · match cb with
    | none => rfl
    | some b => simp [valid_meter_run]
  · match cr with
    | none => rfl
    | some r => rfl
  · match cb with
    | none => rfl
    | some b => rfl

/-- Witness for C3 at concrete inputs: both CVRMSEs present and below 20
gives a valid run. -/
theorem valid_meter_run_iff_witness :
    valid_meter_run (some 5) (some 19) 20 = true :=
  ((valid_meter_run_iff (some 5) (some 19) 20).1).2
    ⟨5, 19, rfl, rfl, by norm_num, by norm_num⟩

/-- C8 counterexample: with `now = 0` and a single consumption stream whose
earliest record timestamp is `5` (later than now), the code defaults the
start date to `0` (now), not to the stream earliest `5` as the claim
requires ("falling back to the current time only when no streams have
data"). -/
theorem resolveStartDate_counterexample :
    resolveStartDate none 0 [5] = 0 ∧ ¬ (resolveStartDate none 0 [5] = 5) := by
  decide

/-- C8 amended: when omitted, the evaluation start date defaults to the
minimum of the current time and the earliest record timestamps of the
supplied streams (so it is the earliest stream timestamp only when that
timestamp is not after now; with no streams it is now); an explicit start
date is used as given; when omitted the end date defaults to now, and an
explicit end date is used as given. -/
theorem resolveStartDate_amended (nowT : Int) (es : List Int) (s e : Int) :
    (resolveStartDate none nowT es = es.foldl min nowT) ∧
    (resolveStartDate (some s) nowT es = s) ∧
    (resolveEndDate none nowT = nowT) ∧
    (resolveEndDate (some e) nowT = e) := by
  refine ⟨?_, rfl, rfl, rfl⟩
  show es.foldl (fun acc e => if e < acc then e else acc) nowT = es.foldl min nowT
  induction es generalizing nowT with
  | nil => rfl
  | cons a l ih =>
    simp only [List.foldl_cons]
    have h : (if a < nowT then a else nowT) = min nowT a := by
      rcases lt_or_le a nowT with h1 | h1
      · simp [h1, min_def, not_le.mpr h1]
      · simp [not_lt.mpr h1, min_def, h1]
    rw [h, ih]

/-- C2: the persisted baseline and reporting daily series of a meter run
always have equal length and identical date sequences (the loop zips the
two value lists with `range(nDays)`); and when each value list has one
entry per day of the evaluation window (the weather source returns one
temperature per day and `model.transform` returns one value per input
temperature), the common length is the number of days in the window and
the dates are exactly `start, start+1, ..., start+nDays-1`. -/
theorem run_meter_series_alignment (start : Date) (nDays : ℕ)
    (valsB valsR : List Val) :
    ((dailyRows start nDays valsB valsR).1.length
        = (dailyRows start nDays valsB valsR).2.length) ∧
    ((dailyRows start nDays valsB valsR).1.map DailyRow.date
        = (dailyRows start nDays valsB valsR).2.map DailyRow.date) ∧
    (valsB.length = nDays → valsR.length = nDays →
      (dailyRows start nDays valsB valsR).1.length = nDays ∧
      (dailyRows start nDays valsB valsR).1.map DailyRow.date
        = (List.range nDays).map fun k : ℕ => start + (k : Int)) := by
  refine ⟨by simp [dailyRows], ?_, ?_⟩
  · simp only [dailyRows, List.map_map]
    rfl
  · intro hB hR
    have hlen : (evalTriples nDays valsB valsR).length = nDays := by
      simp [evalTriples, List.length_zip, hB, hR]
    constructor
    · simp [dailyRows, hlen]
    · have hsnd : (evalTriples nDays valsB valsR).map Prod.snd
          = List.range nDays := by
        apply List.map_snd_zip
        simp [List.length_zip, hB, hR]
      have h1 : (dailyRows start nDays valsB valsR).1.map DailyRow.date
          = ((evalTriples nDays valsB valsR).map Prod.snd).map
              (fun k : ℕ => start + (k : Int)) := by
        rw [List.map_map]
        simp only [dailyRows, List.map_map]
        rfl
      rw [h1, hsnd]

/-- Witness for C2 at a concrete input: two days, two values per regime. -/
theorem run_meter_series_alignment_witness :
    ([some (1 : ℚ), some 2].length = 2) ∧ ([some (3 : ℚ), none].length = 2) ∧
    (dailyRows 0 2 [some 1, some 2] [some 3, none]).1.length = 2 :=
  ⟨by decide, by decide,
    ((run_meter_series_alignment 0 2 [some 1, some 2] [some 3, none]).2.2
      (by decide) (by decide)).1⟩

/-- C4: every persisted monthly-average row of a meter run (one per
visited month, for both regimes) carries the NaN-tolerant mean of that
month's daily values, and carries exactly `some 0` (not NaN) when the
month has no contributing values. -/
theorem monthly_average_rows (start : Date) (nDays : ℕ)
    (valsB valsR : List Val) (m : Month) (vB vR : Val)
    (hB : (m, vB) ∈ (monthlyRows start nDays valsB valsR).1)
    (hR : (m, vR) ∈ (monthlyRows start nDays valsB valsR).2) :
    (vB = if monthValsB start nDays valsB valsR m = [] then some 0
          else nanmean (monthValsB start nDays valsB valsR m)) ∧
    (vR = if monthValsR start nDays valsB valsR m = [] then some 0
          else nanmean (monthValsR start nDays valsB valsR m)) := by
  have hgB : getD (monthAccFor start nDays valsB valsR).groupsB m
      = monthValsB start nDays valsB valsR m := by
    rw [monthAccFor_groupsB, getD_foldl_dappend]
    simp [monthValsB, getD]
  have hgR : getD (monthAccFor start nDays valsB valsR).groupsR m
      = monthValsR start nDays valsB valsR m := by
    rw [monthAccFor_groupsR, getD_foldl_dappend]
    simp [monthValsR, getD]
  constructor
  · simp only [monthlyRows, List.mem_map] at hB
    obtain ⟨m', _, heq⟩ := hB
    have hm : m' = m := ((Prod.mk.injEq _ _ _ _).mp heq.symm).1.symm
    have hv : vB = monthlyVal (getD (monthAccFor start nDays valsB valsR).groupsB m') :=
      ((Prod.mk.injEq _ _ _ _).mp heq.symm).2
    rw [hv, hm, hgB]
    rfl
  · simp only [monthlyRows, List.mem_map] at hR
    obtain ⟨m', _, heq⟩ := hR
    have hm : m' = m := ((Prod.mk.injEq _ _ _ _).mp heq.symm).1.symm
    have hv : vR = monthlyVal (getD (monthAccFor start nDays valsB valsR).groupsR m') :=
      ((Prod.mk.injEq _ _ _ _).mp heq.symm).2
    rw [hv, hm, hgR]
    rfl

theorem flatAll_nil {α β : Type} (g : α → List β) : flatAll g [] = [] := rfl

theorem flatAll_cons {α β : Type} (g : α → List β) (a : α) (l : List α) :
    flatAll g (a :: l) = g a ++ flatAll g l := rfl

theorem foldME_nil {σ α : Type} (f : σ → α → Except String σ) (s : σ) :
    foldME f s ([] : List α) = Except.ok s := rfl

theorem foldME_cons {σ α : Type} (f : σ → α → Except String σ) (s : σ)
    (a : α) (l : List α) :
    foldME f s (a :: l)
      = match f s a with
        | Except.error e => Except.error e
        | Except.ok s2 => foldME f s2 l := rfl

theorem dateDict_addRow (r0 : Date) (ft : FTData) (pr : DailyRow × DailyRow)
    (reg : Reg) :
    dateDict (addRow r0 ft pr) reg
      = dappend (dateDict ft reg) pr.1.date (rowVal r0 pr reg) := by
  cases reg <;> rfl

theorem monthDict_addRow (r0 : Date) (ft : FTData) (pr : DailyRow × DailyRow)
    (reg : Reg) :
    monthDict (addRow r0 ft pr) reg
      = dappend (monthDict ft reg) (monthOf pr.1.date) (rowVal r0 pr reg) := by
  cases reg <;> rfl

theorem dateDict_foldl_addRow (r0 : Date) (pairs : List (DailyRow × DailyRow))
    (ft : FTData) (reg : Reg) :
    dateDict (pairs.foldl (addRow r0) ft) reg
      = pairs.foldl (fun m pr => dappend m pr.1.date (rowVal r0 pr reg))
          (dateDict ft reg) := by
  induction pairs generalizing ft with
  | nil => rfl
  | cons pr rest ih => simp only [List.foldl_cons, ih, dateDict_addRow]

theorem monthDict_foldl_addRow (r0 : Date) (pairs : List (DailyRow × DailyRow))
    (ft : FTData) (reg : Reg) :
    monthDict (pairs.foldl (addRow r0) ft) reg
      = pairs.foldl (fun m pr => dappend m (monthOf pr.1.date) (rowVal r0 pr reg))
          (monthDict ft reg) := by
  induction pairs generalizing ft with
  | nil => rfl
  | cons pr rest ih => simp only [List.foldl_cons, ih, monthDict_addRow]

theorem processRows_some (r0 : Date) (pairs : List (DailyRow × DailyRow))
    (ft : FTData) :
    processRows (some r0) pairs ft = Except.ok (pairs.foldl (addRow r0) ft) := by
  induction pairs generalizing ft with
  | nil => rfl
  | cons pr rest ih =>
    show processRows (some r0) rest (addRow r0 ft pr) = _
    rw [ih, List.foldl_cons]

/-- The inner row loop, when it completes, extends each bucket at each key
by exactly the contributions of the processed row pairs. -/
theorem processRows_ok_getD (rps : Option Date)
    (pairs : List (DailyRow × DailyRow)) (ft ft' : FTData)
    (h : processRows rps pairs ft = Except.ok ft') (reg : Reg) :
    (∀ d : Date, getD (dateDict ft' reg) d
        = getD (dateDict ft reg) d
          ++ pairsContribs rps pairs reg (fun x => x) d) ∧
    (∀ m : Month, getD (monthDict ft' reg) m
        = getD (monthDict ft reg) m ++ pairsContribs rps pairs reg monthOf m) := by
  cases rps with
  | none =>
    cases pairs with
    | nil =>
      injection h with h
      subst h
      constructor <;> intro k <;> simp [pairsContribs]
    | cons pr rest => simp [processRows, foldME] at h
  | some r0 =>
    rw [processRows_some] at h
    injection h with h
    subst h
    constructor
    · intro d
      rw [dateDict_foldl_addRow,
        getD_foldl_dappend (fun pr : DailyRow × DailyRow => pr.1.date)
          (fun pr => rowVal r0 pr reg)]
      rfl
    · intro m
      rw [monthDict_foldl_addRow,
        getD_foldl_dappend (fun pr : DailyRow × DailyRow => monthOf pr.1.date)
          (fun pr => rowVal r0 pr reg)]
      rfl

/-- A completed `updFT` applied the update to the touched fuel type and
left every other fuel type unchanged. -/
theorem updFT_ok (db : DB) (f : String) (g : FTData → Except String FTData)
    (db' : DB) (h : updFT db f g = Except.ok db') :
    g (getFT db f) = Except.ok (getFT db' f) ∧
    ∀ f2, f2 ≠ f → getFT db' f2 = getFT db f2 := by
  induction db generalizing db' with
  | nil =>
    cases hg : g FTData.empty with
    | error e => rw [updFT, hg] at h; cases h
    | ok ft =>
      rw [updFT, hg] at h
      injection h with h
      subst h
      constructor
      · simp [getFT, hg]
      · intro f2 hf2
        simp [getFT, hf2]
  | cons a rest ih =>
    obtain ⟨f2, ft2⟩ := a
    by_cases hf : f = f2
    · subst hf
      cases hg : g ft2 with
      | error e => rw [updFT, if_pos rfl, hg] at h; cases h
      | ok ft =>
        rw [updFT, if_pos rfl, hg] at h
        injection h with h
        subst h
        constructor
        · simp [getFT, hg]
        · intro f3 hf3
          simp [getFT, hf3]
    · cases hu : updFT rest f g with
      | error e => rw [updFT, if_neg hf, hu] at h; cases h
      | ok rest2 =>
        rw [updFT, if_neg hf, hu] at h
        injection h with h
        subst h
        obtain ⟨ih1, ih2⟩ := ih rest2 hu
        constructor
        · have hne : ¬ f = f2 := hf
          simpa [getFT, hne] using ih1
        · intro f3 hf3
          by_cases h3 : f3 = f2
          · simp [getFT, h3]
          · simp only [getFT, if_neg h3]
            exact ih2 f3 hf3

/-- Each completed meter-run step extends each bucket by that run's
contributions. -/
theorem processRun_ok_getD (rps : Option Date) (run : MeterRunData)
    (db db' : DB) (h : processRun rps run db = Except.ok db') (f : String)
    (reg : Reg) :
    (∀ d : Date, getD (dateDict (getFT db' f) reg) d
        = getD (dateDict (getFT db f) reg) d
          ++ runContribs rps run f reg (fun x => x) d) ∧
    (∀ m : Month, getD (monthDict (getFT db' f) reg) m
        = getD (monthDict (getFT db f) reg) m
          ++ runContribs rps run f reg monthOf m) := by
  by_cases hlen : run.baseline.length = run.reporting.length
  · rw [processRun, if_pos hlen] at h
    obtain ⟨h1, h2⟩ := updFT_ok db run.fuel_type _ db' h
    by_cases hf : run.fuel_type = f
    · subst hf
      obtain ⟨hd, hm⟩ := processRows_ok_getD _ _ _ _ h1 reg
      constructor
      · intro d
        rw [hd d, runContribs, if_pos rfl]
      · intro m
        rw [hm m, runContribs, if_pos rfl]
    · have hgf : getFT db' f = getFT db f := h2 f (fun hh => hf hh.symm)
      constructor
      · intro d
        rw [hgf, runContribs, if_neg hf, List.append_nil]
      · intro m
        rw [hgf, runContribs, if_neg hf, List.append_nil]
  · rw [processRun, if_neg hlen] at h
    cases h

/-- A completed fold over a project's meter runs extends each bucket by
the concatenated contributions of those runs. -/
theorem runsFold_getD (rps : Option Date) (runs : List MeterRunData)
    (db db' : DB)
    (h : foldME (fun db run => processRun rps run db) db runs = Except.ok db')
    (f : String) (reg : Reg) :
    (∀ d : Date, getD (dateDict (getFT db' f) reg) d
        = getD (dateDict (getFT db f) reg) d
          ++ flatAll (fun run => runContribs rps run f reg (fun x => x) d) runs) ∧
    (∀ m : Month, getD (monthDict (getFT db' f) reg) m
        = getD (monthDict (getFT db f) reg) m
          ++ flatAll (fun run => runContribs rps run f reg monthOf m) runs) := by
  induction runs generalizing db with
  | nil =>
    injection h with h
    subst h
    constructor <;> intro k <;> simp [flatAll]
  | cons run rest ih =>
    rw [foldME_cons] at h
    cases hp : processRun rps run db with
    | error e => rw [hp] at h; cases h
    | ok db2 =>
      rw [hp] at h
      obtain ⟨pd, pm⟩ := processRun_ok_getD rps run db db2 hp f reg
      obtain ⟨rd, rm⟩ := ih db2 h
      constructor
      · intro d
        rw [rd d, pd d, flatAll, List.append_assoc]
      · intro m
        rw [rm m, pm m, flatAll, List.append_assoc]

/-- A completed phase-1 fold over the projects extends each bucket by the
concatenated contributions of all their meter runs. -/
theorem projFold_getD (projects : List ProjData) (db db' : DB)
    (h : foldME (fun db p =>
        foldME (fun db run => processRun p.reporting_period_start run db)
          db p.runs) db projects = Except.ok db')
    (f : String) (reg : Reg) :
    (∀ d : Date, getD (dateDict (getFT db' f) reg) d
        = getD (dateDict (getFT db f) reg) d
          ++ contribsOn projects f reg (fun x => x) d) ∧
    (∀ m : Month, getD (monthDict (getFT db' f) reg) m
        = getD (monthDict (getFT db f) reg) m
          ++ contribsOn projects f reg monthOf m) := by
  induction projects generalizing db with
  | nil =>
    injection h with h
    subst h
    constructor <;> intro k <;> simp [contribsOn, flatAll]
  | cons p rest ih =>
    rw [foldME_cons] at h
    cases hp : foldME (fun db run => processRun p.reporting_period_start run db)
        db p.runs with
    | error e => rw [hp] at h; cases h
    | ok db2 =>
      rw [hp] at h
      obtain ⟨pd, pm⟩ := runsFold_getD p.reporting_period_start p.runs db db2 hp f reg
      obtain ⟨rd, rm⟩ := ih db2 h
      constructor
      · intro d
        rw [rd d, pd d, List.append_assoc]
        rfl
      · intro m
        rw [rm m, pm m, List.append_assoc]
        rfl

theorem dateDict_empty (reg : Reg) : dateDict FTData.empty reg = [] := by
  cases reg <;> rfl

theorem monthDict_empty (reg : Reg) : monthDict FTData.empty reg = [] := by
  cases reg <;> rfl

/-- After a completed phase 1, each bucket at each key holds exactly the
input contributions for that fuel type, series kind, and key. -/
theorem accumulate_getD (projects : List ProjData) (db : DB)
    (h : accumulate projects = Except.ok db) (f : String) (reg : Reg) :
    (∀ d : Date, getD (dateDict (getFT db f) reg) d
        = contribsAtDate projects f reg d) ∧
    (∀ m : Month, getD (monthDict (getFT db f) reg) m
        = contribsAtMonth projects f reg m) := by
  obtain ⟨hd, hm⟩ := projFold_getD projects [] db h f reg
  constructor
  · intro d
    have := hd d
    rw [show getFT [] f = FTData.empty from rfl, dateDict_empty] at this
    simpa [getD, contribsAtDate] using this
  · intro m
    have := hm m
    rw [show getFT [] f = FTData.empty from rfl, monthDict_empty] at this
    simpa [getD, contribsAtMonth] using this

/-- C1: in portfolio aggregation, the accumulated "actual" values at any
date are exactly the contributing projects' per-row values, where a row
whose date is strictly after the owning project's reporting-period start
contributes its reporting-regime value and any other row — including one
dated exactly at the reporting start — contributes its baseline-regime
value. -/
theorem actual_regime_switch (projects : List ProjData) (db : DB)
    (h : accumulate projects = Except.ok db) (f : String) (d : Date) :
    (getD (getFT db f).actualByDate d = contribsAtDate projects f Reg.actual d) ∧
    (∀ (rps : Date) (pr : DailyRow × DailyRow),
      rps < pr.1.date → rowVal rps pr Reg.actual = pr.2.value) ∧
    (∀ (rps : Date) (pr : DailyRow × DailyRow),
      ¬ rps < pr.1.date → rowVal rps pr Reg.actual = pr.1.value) ∧
    (∀ (rps : Date) (pr : DailyRow × DailyRow),
      pr.1.date = rps → rowVal rps pr Reg.actual = pr.1.value) := by
  refine ⟨(accumulate_getD projects db h f Reg.actual).1 d, ?_, ?_, ?_⟩
  · intro rps pr hlt
    simp [rowVal, hlt]
  · intro rps pr hlt
    simp [rowVal, hlt]
  · intro rps pr heq
    have : ¬ rps < pr.1.date := by rw [heq]; exact lt_irrefl rps
    simp [rowVal, this]

/-- Witness for C1: the regime-switch characterization evaluated on the
concrete one-project input `exProjC1`. -/
theorem actual_regime_switch_witness :
    getD (getFT exDbC1 "E").actualByDate 1
      = contribsAtDate exProjC1 "E" Reg.actual 1 := by
  have h : accumulate exProjC1 = Except.ok exDbC1 := by rfl
  exact (actual_regime_switch exProjC1 exDbC1 h "E" 1).1

/-- C5: every persisted daily and monthly portfolio summary value (for
each fuel type, each series kind, each date and each month) is the
NaN-tolerant sum of the per-project values over exactly the projects that
contributed data for that fuel type at that date or month. -/
theorem summary_sum_values (projects : List ProjData)
    (outs : List SummaryOut)
    (h : compute_summary_timeseries projects = Except.ok outs)
    (out : SummaryOut) (hout : out ∈ outs) :
    (∀ dv ∈ out.dailyB,
      dv.2 = nansum (contribsAtDate projects out.fuel_type Reg.baseline dv.1)) ∧
    (∀ dv ∈ out.dailyA,
      dv.2 = nansum (contribsAtDate projects out.fuel_type Reg.actual dv.1)) ∧
    (∀ dv ∈ out.dailyR,
      dv.2 = nansum (contribsAtDate projects out.fuel_type Reg.reporting dv.1)) ∧
    (∀ mv ∈ out.monthlyB,
      mv.2 = nansum (contribsAtMonth projects out.fuel_type Reg.baseline mv.1)) ∧
    (∀ mv ∈ out.monthlyA,
      mv.2 = nansum (contribsAtMonth projects out.fuel_type Reg.actual mv.1)) ∧
    (∀ mv ∈ out.monthlyR,
      mv.2 = nansum (contribsAtMonth projects out.fuel_type Reg.reporting mv.1)) := by
  cases hacc : accumulate projects with
  | error e =>
    rw [compute_summary_timeseries, hacc] at h
    cases h
  | ok db =>
    rw [compute_summary_timeseries, hacc] at h
    injection h with h
    subst h
    simp only [summarize, List.mem_map] at hout
    obtain ⟨fp, hfp, rfl⟩ := hout
    have hc := accumulate_getD projects db hacc fp.1
    refine ⟨?_, ?_, ?_, ?_, ?_, ?_⟩
    · intro dv hdv
      simp only [mkOut, List.mem_map] at hdv
      obtain ⟨k, hk, rfl⟩ := hdv
      exact congrArg nansum ((hc Reg.baseline).1 k)
    · intro dv hdv
      simp only [mkOut, List.mem_map] at hdv
      obtain ⟨k, hk, rfl⟩ := hdv
      exact congrArg nansum ((hc Reg.actual).1 k)
    · intro dv hdv
      simp only [mkOut, List.mem_map] at hdv
      obtain ⟨k, hk, rfl⟩ := hdv
      exact congrArg nansum ((hc Reg.reporting).1 k)
    · intro mv hmv
      simp only [mkOut, List.mem_map] at hmv
      obtain ⟨k, hk, rfl⟩ := hmv
      exact congrArg nansum ((hc Reg.baseline).2 k)
    · intro mv hmv
      simp only [mkOut, List.mem_map] at hmv
      obtain ⟨k, hk, rfl⟩ := hmv
      exact congrArg nansum ((hc Reg.actual).2 k)
    · intro mv hmv
      simp only [mkOut, List.mem_map] at hmv
      obtain ⟨k, hk, rfl⟩ := hmv
      exact congrArg nansum ((hc Reg.reporting).2 k)

set_option maxRecDepth 16384 in
/-- Witness for C5, realizing the spec example: two projects with
electricity values 10 and 20 on day 0 yield a daily actual summary of 30,
which is the NaN-tolerant sum of exactly their contributions. -/
theorem summary_sum_values_witness :
    exOutC5 ∈ exOutsC5 ∧
    (((0 : Int), (30 : ℚ)) ∈ exOutC5.dailyA) ∧
    ((30 : ℚ)
      = nansum (contribsAtDate exProjC5 exOutC5.fuel_type Reg.actual 0)) :=
  ⟨by with_unfolding_all decide, by with_unfolding_all decide,
    (summary_sum_values exProjC5 exOutsC5 (by rfl) exOutC5
        (by with_unfolding_all decide)).2.1
      ((0 : Int), (30 : ℚ)) (by with_unfolding_all decide)⟩

set_option maxRecDepth 16384 in
/-- Witness for C4 at a concrete input: a two-day window in January 1970
with baseline values 2 and 4 (monthly average 3) and reporting values NaN
and NaN (monthly average NaN). -/
theorem monthly_average_rows_witness :
    ((((1970 : Int), (1 : Int)), some (3 : ℚ))
        ∈ (monthlyRows 0 2 [some 2, some 4] [none, none]).1) ∧
    ((((1970 : Int), (1 : Int)), (none : Val))
        ∈ (monthlyRows 0 2 [some 2, some 4] [none, none]).2) ∧
    (some (3 : ℚ)
      = if monthValsB 0 2 [some 2, some 4] [none, none] (1970, 1) = []
        then some 0 else nanmean (monthValsB 0 2 [some 2, some 4] [none, none] (1970, 1))) :=
  ⟨by with_unfolding_all decide, by with_unfolding_all decide,
    (monthly_average_rows 0 2 [some 2, some 4] [none, none] (1970, 1)
        (some 3) none
        (by with_unfolding_all decide) (by with_unfolding_all decide)).1⟩

/-- If one list element always fails, the error-propagating fold fails. -/
theorem foldME_isError {σ α : Type} (f : σ → α → Except String σ)
    (l : List α) (x : α) (hx : x ∈ l)
    (hf : ∀ s, isError (f s x) = true) (s0 : σ) :
    isError (foldME f s0 l) = true := by
  induction l generalizing s0 with
  | nil => cases hx
  | cons a rest ih =>
    rw [foldME_cons]
    cases ha : f s0 a with
    | error e => rfl
    | ok s1 =>
      rcases List.mem_cons.mp hx with rfl | hx2
      · have := hf s0
        rw [ha] at this
        cases this
      · exact ih hx2 s1

/-- If the update always fails, `updFT` fails. -/
theorem updFT_isError (db : DB) (f : String)
    (g : FTData → Except String FTData)
    (hg : ∀ ft, isError (g ft) = true) :
    isError (updFT db f g) = true := by
  induction db with
  | nil =>
    cases h : g FTData.empty with
    | error e => simp [updFT, h, isError]
    | ok ft =>
      have := hg FTData.empty
      rw [h] at this
      cases this
  | cons a rest ih =>
    obtain ⟨f2, ft2⟩ := a
    by_cases hf : f = f2
    · cases h : g ft2 with
      | error e => simp [updFT, hf, h, isError]
      | ok ft =>
        have := hg ft2
        rw [h] at this
        cases this
    · cases h : updFT rest f g with
      | error e => simp [updFT, hf, h, isError]
      | ok rest2 =>
        rw [h] at ih
        cases ih

/-- Processing a meter run with daily rows under a project whose
reporting-period start is unset always raises: either the alignment
`assert` fails, or the first row iteration dereferences `None`. -/
theorem processRun_none_isError (run : MeterRunData) (db : DB)
    (hne : run.baseline ≠ []) :
    isError (processRun none run db) = true := by
  by_cases hlen : run.baseline.length = run.reporting.length
  · rw [processRun, if_pos hlen]
    apply updFT_isError
    intro ft
    cases hb : run.baseline with
    | nil => exact absurd hb hne
    | cons b bs =>
      cases hr : run.reporting with
      | nil => rw [hb, hr] at hlen; simp at hlen
      | cons r rs => rfl
  · rw [processRun, if_neg hlen]
    rfl

/-- C10: `compute_summary_timeseries` dereferences each contributing
project's nullable `reporting_period_start` unconditionally; whenever some
project whose recent meter run has daily usage rows leaves it unset,
aggregation raises (during phase 1, hence before any summary row is
written, since phase 2 produces the summary rows only from a completed
phase 1), so a non-null reporting start on every contributing project is
a precondition of aggregation. -/
theorem aggregation_requires_reporting_start (projects : List ProjData)
    (p : ProjData) (run : MeterRunData) (hp : p ∈ projects)
    (hr : run ∈ p.runs) (hnone : p.reporting_period_start = none)
    (hne : run.baseline ≠ []) :
    isError (compute_summary_timeseries projects) = true := by
  have hacc : isError (accumulate projects) = true := by
    rw [accumulate]
    apply foldME_isError _ projects p hp
    intro db
    apply foldME_isError _ p.runs run hr
    intro db2
    rw [hnone]
    exact processRun_none_isError run db2 hne
  cases h : accumulate projects with
  | error e => simp [compute_summary_timeseries, h, isError]
  | ok db =>
    rw [h] at hacc
    cases hacc

/-- Witness for C10: one project with `reporting_period_start` unset and a
one-row meter run makes aggregation raise. -/
theorem aggregation_requires_reporting_start_witness :
    ((⟨none, [⟨"E", [⟨0, some 1⟩], [⟨0, some 2⟩]⟩]⟩ : ProjData) ∈ c10projects) ∧
    isError (compute_summary_timeseries c10projects) = true :=
  ⟨by decide,
    aggregation_requires_reporting_start c10projects
      ⟨none, [⟨"E", [⟨0, some 1⟩], [⟨0, some 2⟩]⟩]⟩
      ⟨"E", [⟨0, some 1⟩], [⟨0, some 2⟩]⟩
      (by decide) (by decide) rfl (by decide)⟩

set_option maxRecDepth 32768 in
/-- C6 counterexample: run the pipeline on the claim's scenario
(window Jan 1 - Jan 3 1970, temperatures 30, 40, 50, reporting start
Jan 2) with the concrete transforms `fBc6 = id` and `fRc6 = (+1)`.
The aggregated actual daily values are `[30, 40, 51]`, i.e.
`[fBc6 30, fBc6 40, fRc6 50]`: the Jan 2 entry is the baseline value
`fBc6 40 = 40`, not the reporting value `fRc6 40 = 41` the claim
asserts, because the regime switch is strict at the boundary. -/
theorem c6_boundary_counterexample :
    (((c6outs fBc6 fRc6).map fun o => o.dailyA.map Prod.snd)
        = [[30, 40, 51]]) ∧
    ([fBc6 30, fBc6 40, fRc6 50] = [(30 : ℚ), 40, 51]) ∧
    ([fBc6 30, fRc6 40, fRc6 50] = [(30 : ℚ), 41, 51]) ∧
    ¬ ([(30 : ℚ), 40, 51] = [(30 : ℚ), 41, 51]) := by
  refine ⟨by with_unfolding_all decide, by with_unfolding_all decide,
    by with_unfolding_all decide, by with_unfolding_all decide⟩

set_option maxRecDepth 32768 in
/-- C6 amended: for every baseline transform `fB` and reporting transform
`fR`, the scenario's aggregated actual series is
`[fB 30, fB 40, fR 50]` — the Jan 2 entry (the day equal to the
reporting-period start) carries the baseline value `fB 40`, and only the
day strictly after the start carries a reporting value. -/
theorem c6_actual_series_amended (fB fR : ℚ → ℚ) :
    ((c6outs fB fR).map fun o => o.dailyA)
      = [[(0, fB 30), (1, fB 40), (2, fR 50)]] := by
  with_unfolding_all rfl

/-- C7 (code bug): when the model-fitting collaborator returns no fitted
parameters for the baseline regime, the `MeterRun` scalar fields are
correctly recorded as unknown (`None`), but the daily/monthly series
generation does not run to completion: `model.transform` is called with
the never-assigned local `model_parameters_baseline` and raises, instead
of propagating the absence as unknown as the spec requires. -/
theorem model_fit_absence_raises :
    gatherMeterRun c7results
      = ⟨none, some 5, none, none, none, some 10⟩ ∧
    evalStreamSeries c7results 0 3 [30, 40, 50]
      = Except.error
          "UnboundLocalError: local variable model_parameters_baseline referenced before assignment" :=
  ⟨rfl, rfl⟩

/-- C9 counterexample: on streams electricity, water, electricity the
loop persists only the first stream's meter run and raises
`NotImplementedError`; the third stream is supported yet produces no
meter run, although the claim requires every other supported stream to
still produce one (two supported streams, but only one persisted run). -/
theorem unsupported_fuel_counterexample :
    runMeterLoop c9streams = (["DFLT_RES_E"], some "NotImplementedError") ∧
    ¬ ((["DFLT_RES_E"] : List String).length = 2) :=
  ⟨rfl, by decide⟩

/-- C9 amended: an unsupported fuel type raises `NotImplementedError` and
aborts the whole `run_meter` call: the streams before it keep their
persisted meter runs, and no stream after it — supported or not — is
evaluated or produces a meter run. -/
theorem unsupported_fuel_aborts (pre : List FuelStream) (s : FuelStream)
    (post : List FuelStream)
    (hpre : ∀ t ∈ pre, isSupportedFuel t.fuel_type = true)
    (hs : isSupportedFuel s.fuel_type = false) :
    runMeterLoop (pre ++ s :: post)
      = (pre.map savedMeterType, some "NotImplementedError") := by
  induction pre with
  | nil =>
    simp only [List.nil_append, List.map_nil]
    have hcfg : modelConfigFor s.fuel_type = Except.error "NotImplementedError" := by
      simp only [isSupportedFuel, Bool.or_eq_false_iff, decide_eq_false_iff_not] at hs
      simp [modelConfigFor, hs.1, hs.2]
    rw [runMeterLoop, hcfg]
  | cons t rest ih =>
    have ht := hpre t (List.mem_cons_self t rest)
    have hrest : ∀ u ∈ rest, isSupportedFuel u.fuel_type = true :=
      fun u hu => hpre u (List.mem_cons_of_mem t hu)
    have hih := ih hrest
    simp only [isSupportedFuel, Bool.or_eq_true, decide_eq_true_eq] at ht
    rcases ht with ht | ht
    · rw [List.cons_append, runMeterLoop]
      rw [show modelConfigFor t.fuel_type = Except.ok ("E", true, true) by
        simp [modelConfigFor, ht]]
      rw [hih, List.map_cons]
      simp [savedMeterType, ht]
    · rw [List.cons_append, runMeterLoop]
      rw [show modelConfigFor t.fuel_type = Except.ok ("NG", true, false) by
        have he : ¬ t.fuel_type = "electricity" := by rw [ht]; decide
        simp [modelConfigFor, he, ht]]
      rw [hih, List.map_cons]
      have he : ¬ t.fuel_type = "electricity" := by
        rw [ht]; decide
      simp [savedMeterType, he]

/-- Witness for C9 amended at a concrete input: electricity before,
water unsupported, electricity after. -/
theorem unsupported_fuel_aborts_witness :
    (isSupportedFuel "water" = false) ∧
    runMeterLoop ([⟨"electricity"⟩] ++ ⟨"water"⟩ :: [⟨"electricity"⟩])
      = ([(⟨"electricity"⟩ : FuelStream)].map savedMeterType,
          some "NotImplementedError") :=
  ⟨by decide,
    unsupported_fuel_aborts [⟨"electricity"⟩] ⟨"water"⟩ [⟨"electricity"⟩]
      (by decide) (by decide)⟩
